import Mathlib

/-!
Verification of the delira training-orchestration layer: a shallow embedding
of the checkpoint protocol, resume scanning, device-placement resolution and
checkpoint cadence of `PyTorchNetworkTrainer` and `ChainerNetworkTrainer`,
together with theorems settling the specified properties.
-/

namespace Delira

/-! ### Constructor loss/criterion resolution

Embeds the first block of `PyTorchNetworkTrainer.__init__`
(src/delira/training/pytorch_trainer.py, lines 99-115):

```
if (criterions is not None) ^ (losses is not None):
    if losses is not None:
        crits = losses
    elif criterions is not None:
        warnings.warn(DeprecationWarning(...))
        crits = criterions
else:
    crits = losses
    warnings.warn(RuntimeWarning("'criterions' and 'losses' have been specified. ..."))
```
-/

/-- Warnings the constructor can emit while resolving the deprecated
`criterions` argument against the current `losses` argument. -/
inductive TrainerWarning
  | deprecatedCriterions
  | bothSpecified
  deriving DecidableEq, Repr

/-- Resolution of the `losses` / `criterions` constructor arguments:
returns the value bound to `crits` together with the warnings issued.
`none` models a Python `None` argument. -/
def resolveLosses {L : Type} (losses criterions : Option L) :
    Option L × List TrainerWarning :=
  if criterions.isSome != losses.isSome then
    match losses, criterions with
    | some l, _ => (some l, [])
    | none, c => (c, [.deprecatedCriterions])
  else
    (losses, [.bothSpecified])

/-! ### Checkpoint save/load and trainer-state update

Embeds `save_state`, `load_state`, `_update_state` of
`PyTorchNetworkTrainer` and the resume `try/except KeyError` of `_setup`.
Model states and optimizer states are abstract types `M` and `O`; the
optimizer dictionary is an association list keyed by optimizer name.
-/

/-- Python `str.startswith`, over the character lists of the strings. -/
def strStartsWith (s p : String) : Bool := p.data.isPrefixOf s.data

/-- Python `str.endswith`, over the character lists of the strings. -/
def strEndsWith (s p : String) : Bool := p.data.isSuffixOf s.data

/-- Appends the canonical torch extension when absent; shared logic of
`save_state` and `load_state`:
`if not (file_name.endswith(".pth") or file_name.endswith(".pt")): file_name += ".pt"`. -/
def canonicalTorchName (file_name : String) : String :=
  if strEndsWith file_name ".pth" || strEndsWith file_name ".pt" then file_name
  else file_name ++ ".pt"

/-- Appends the canonical chainer extension when absent; shared logic of the
chainer `save_state` and `load_state`. -/
def canonicalChainerName (file_name : String) : String :=
  if strEndsWith file_name ".chain" then file_name
  else file_name ++ ".chain"

/-- The argument tuple that `PyTorchNetworkTrainer.save_state` passes to
`delira.io.torch.save_checkpoint`.  The source calls
`save_checkpoint(file_name, self.module, self.optimizers, **kwargs)`; the
`epoch` parameter of `save_state` is a plain named parameter, so it is never
part of `**kwargs`.  `epochKw` records the epoch keyword argument the io
function receives, if any. -/
structure SaveCheckpointCall (M O : Type) where
  file : String
  model : M
  optimizers : List (String × O)
  epochKw : Option Nat
  deriving DecidableEq, Repr

/-- The mutable trainer state relevant to the checkpoint protocol:
the live module state, the optimizer dictionary, `start_epoch`, and the
attribute names set by the generic merge step of the base class. -/
structure PyTorchTrainerState (M O : Type) where
  module : M
  optimizers : List (String × O)
  start_epoch : Nat
  mergedKeys : List String
  deriving DecidableEq, Repr

/-- Embedding of `PyTorchNetworkTrainer.save_state` (lines 366-385): the
filename is canonicalized and `save_checkpoint` is called with the file,
the module and the optimizers only — the `epoch` parameter is accepted but
not forwarded. -/
def save_state {M O : Type} (t : PyTorchTrainerState M O)
    (file_name : String) (epoch : Nat) : SaveCheckpointCall M O :=
  let _ := epoch
  { file := canonicalTorchName file_name
    model := t.module
    optimizers := t.optimizers
    epochKw := none }

/-- The three-field checkpoint bundle of the spec, plus the names of any
further keys passed through to the generic merge step. -/
structure StateBundle (M O : Type) where
  model : Option M
  optimizer : Option (List (String × O))
  epoch : Option Nat
  rest : List String
  deriving DecidableEq, Repr

/-- Modelled from the spec: `delira.io.torch.save_checkpoint` (module
`delira/io/torch.py`, not part of the examined sources) "serializes the
current model state, every optimizer's state, and the epoch integer as one
atomic artifact" with schema
`{ "model": ..., "optimizer": ..., "epoch": ... }`; the epoch field holds
the epoch keyword argument the caller supplied. -/
def save_checkpoint {M O : Type} (call : SaveCheckpointCall M O) :
    StateBundle M O :=
  { model := some call.model
    optimizer := some call.optimizers
    epoch := call.epochKw
    rest := [] }

/-- Modelled from the spec: `delira.io.torch.load_checkpoint` (module
`delira/io/torch.py`, not part of the examined sources) "returns the
three-field bundle without mutating trainer state". -/
def load_checkpoint {M O : Type} (stored : StateBundle M O) : StateBundle M O :=
  stored

/-- The optimizer-loading loop of `_update_state` (lines 450-454):
`for key in self.optimizers.keys(): self.optimizers[key].load_state_dict(optim_state[key])`.
Keys are processed in order; a key absent from `optim_state` raises
`KeyError`, leaving that optimizer and the later ones untouched.  Returns
the optimizer list after the loop together with a flag telling whether
`KeyError` was raised. -/
def loadOptimStates {O : Type} (current optim_state : List (String × O)) :
    List (String × O) × Bool :=
  match current with
  | [] => ([], false)
  | (k, v) :: tl =>
    match optim_state.lookup k with
    | none => ((k, v) :: tl, true)
    | some s =>
      ((k, s) :: (loadOptimStates tl optim_state).1,
        (loadOptimStates tl optim_state).2)

/-- First block of `_update_state` (lines 447-448):
`if "model" in new_state: self.module.load_state_dict(new_state.pop("model"))`. -/
def updateModel {M O : Type} (t : PyTorchTrainerState M O)
    (b : StateBundle M O) : PyTorchTrainerState M O :=
  match b.model with
  | some m => { t with module := m }
  | none => t

/-- Second block of `_update_state` (lines 450-454):
`if "optimizer" in new_state and new_state["optimizer"]:` followed by the
per-key loading loop; returns the optimizer list after the block and
whether `KeyError` was raised. -/
def updateOptim {M O : Type} (t1 : PyTorchTrainerState M O)
    (b : StateBundle M O) : List (String × O) × Bool :=
  match b.optimizer with
  | some os =>
    if os.isEmpty then (t1.optimizers, false)
    else loadOptimStates t1.optimizers os
  | none => (t1.optimizers, false)

/-- Third block of `_update_state` (lines 456-457):
`if "epoch" in new_state: self.start_epoch = new_state.pop("epoch")`. -/
def updateEpoch {M O : Type} (t2 : PyTorchTrainerState M O)
    (b : StateBundle M O) : PyTorchTrainerState M O :=
  match b.epoch with
  | some e => { t2 with start_epoch := e }
  | none => t2

/-- Embedding of `PyTorchNetworkTrainer._update_state` (lines 431-459),
made explicit about sequencing: the model state is applied first (when the
`"model"` key is present), then the optimizer states (where a missing key
raises `KeyError`, leaving the later blocks unexecuted), then the epoch,
then the generic merge of remaining keys.  Returns the (possibly partially
mutated) state and whether `KeyError` was raised. -/
def update_state {M O : Type} (t : PyTorchTrainerState M O)
    (b : StateBundle M O) : PyTorchTrainerState M O × Bool :=
  let t1 := updateModel t b
  let s2 := updateOptim t1 b
  let t2 := { t1 with optimizers := s2.1 }
  if s2.2 then (t2, true)
  else
    let t3 := updateEpoch t2 b
    ({ t3 with mergedKeys := t3.mergedKeys ++ b.rest }, false)

/-- The resume step of `_setup` (lines 212-217): `update_state` is attempted
and a `KeyError` is caught and logged as a warning, after which setup
continues.  Returns the resulting trainer state and whether the warning was
logged. -/
def setupResume {M O : Type} (t : PyTorchTrainerState M O)
    (b : StateBundle M O) : PyTorchTrainerState M O × Bool :=
  update_state t b

/-! ### Resume directory scan

Embeds the checkpoint-discovery block of `PyTorchNetworkTrainer._setup`
(lines 186-204).  Filenames are Lean `String`s; the directory listing is
the list of names of the plain files in `save_path` (the source's
`os.path.isfile` test).  The splitting helpers mirror Python's
`x.rsplit("_", 1)[-1]` and `y.rsplit(".", 1)[0]` on the character list of
the name.
-/

/-- The characters after the last occurrence of `sep` (the whole list when
`sep` does not occur); Python `s.rsplit(sep, 1)[-1]`. -/
def afterLastSep (sep : Char) : List Char → List Char
  | [] => []
  | c :: tl =>
    if tl.contains sep then afterLastSep sep tl
    else if c == sep then tl
    else c :: tl

/-- The characters before the last occurrence of `sep` (the whole list when
`sep` does not occur); Python `s.rsplit(sep, 1)[0]`. -/
def beforeLastSep (sep : Char) : List Char → List Char
  | [] => []
  | c :: tl =>
    if tl.contains sep then c :: beforeLastSep sep tl
    else if c == sep then []
    else c :: tl

/-- Value of a decimal digit character, `none` on a non-digit. -/
def charDigitVal (c : Char) : Option Nat :=
  if '0' ≤ c ∧ c ≤ '9' then some (c.toNat - '0'.toNat) else none

/-- Python `int(s)` restricted to nonempty unsigned decimal digit strings;
`none` models the `ValueError` raised on anything else. -/
def parseNatDigits : List Char → Option Nat
  | [] => none
  | cs => go cs 0
where
  go : List Char → Nat → Option Nat
    | [], acc => some acc
    | c :: tl, acc =>
      match charDigitVal c with
      | none => none
      | some d => go tl (acc * 10 + d)

/-- `int(x.rsplit("_", 1)[-1].rsplit(".", 1)[0])` (line 199): the trailing
numeric segment before the extension of a checkpoint filename. -/
def parseEpochSegment (x : String) : Option Nat :=
  parseNatDigits (beforeLastSep '.' (afterLastSep '_' x.data))

/-- The filter of lines 189-193: keep plain files whose name starts with
`"checkpoint"` and does not end with `"_best.pth"` or `"_best.pt"`. -/
def torchResumeFiles (listing : List String) : List String :=
  listing.filter (fun x =>
    strStartsWith x "checkpoint" &&
    !(strEndsWith x "_best.pth" || strEndsWith x "_best.pt"))

/-- The corresponding filter of the chainer `_setup` (lines 180-183): keep
plain files whose name starts with `"checkpoint"` and does not end with
`"_best.chain"`. -/
def chainerResumeFiles (listing : List String) : List String :=
  listing.filter (fun x =>
    strStartsWith x "checkpoint" && !(strEndsWith x "_best.chain"))

/-- Outcome of the resume scan. -/
inductive ResumeOutcome
  | noCheckpoint
  | resumeFrom (latest_epoch : Nat)
  | parseFailure
  deriving DecidableEq, Repr

/-- The scan logic shared by both backends after filtering: if any file
remains, take the maximum of the parsed trailing epoch numbers; a file
whose trailing segment is not a digit string makes Python's `int` raise
(`parseFailure`). -/
def scanLatest (files : List String) : ResumeOutcome :=
  if files.isEmpty then .noCheckpoint
  else
    match files.mapM parseEpochSegment with
    | none => .parseFailure
    | some [] => .parseFailure  -- unreachable: `mapM` preserves length
    | some (e :: es) => .resumeFrom (es.foldl Nat.max e)

/-- The resume scan of the pytorch `_setup` (lines 186-204). -/
def resumeScan (listing : List String) : ResumeOutcome :=
  scanLatest (torchResumeFiles listing)

/-- The resume scan of the chainer `_setup` (lines 177-195). -/
def chainerResumeScan (listing : List String) : ResumeOutcome :=
  scanLatest (chainerResumeFiles listing)

/-! ### Resume path selection and extension fallback

Embeds lines 202-208 of the pytorch `_setup` and lines 192-199 of the
chainer `_setup`: the latest-checkpoint path is built with the primary
extension and, when that file is absent, the last character of the path is
sliced off (`latest_state_path[:-1]`).  `load_state` then canonicalizes
the name it is given.  The filesystem is abstracted as the predicate
`fileExists`.
-/

/-- Python `s[:-1]`. -/
def dropLastChar (s : String) : String := ⟨s.data.dropLast⟩

/-- `os.path.join(a, b)` for a directory and a plain filename. -/
def pathJoin (a b : String) : String := a ++ "/" ++ b

/-- Lines 202-208 of the pytorch `_setup`: the path tried for resume —
`checkpoint_epoch_<N>.pth`, or that path without its final character
(`.pt`) when the `.pth` file is absent. -/
def torchLatestStatePath (save_path : String) (latest_epoch : Nat)
    (fileExists : String → Bool) : String :=
  let p := pathJoin save_path ("checkpoint_epoch_" ++ toString latest_epoch ++ ".pth")
  if fileExists p then p else dropLastChar p

/-- The filename the pytorch `load_state` actually opens during resume:
the selected path, canonicalized. -/
def torchResumeLoadName (save_path : String) (latest_epoch : Nat)
    (fileExists : String → Bool) : String :=
  canonicalTorchName (torchLatestStatePath save_path latest_epoch fileExists)

/-- Lines 192-199 of the chainer `_setup`: the path tried for resume —
`checkpoint_epoch_<N>.chain`, or that path without its final character
when the `.chain` file is absent. -/
def chainerLatestStatePath (save_path : String) (latest_epoch : Nat)
    (fileExists : String → Bool) : String :=
  let p := pathJoin save_path ("checkpoint_epoch_" ++ toString latest_epoch ++ ".chain")
  if fileExists p then p else dropLastChar p

/-- The filename the chainer `load_state` actually opens during resume:
the selected path, canonicalized. -/
def chainerResumeLoadName (save_path : String) (latest_epoch : Nat)
    (fileExists : String → Bool) : String :=
  canonicalChainerName (chainerLatestStatePath save_path latest_epoch fileExists)

/-! ### Device placement resolution

Embeds lines 219-244 of the pytorch `_setup` and lines 210-280 of the
chainer `_setup`.  The capability probes (`torch.cuda.is_available()`,
`torch.cuda.device_count()`, `chainer.chainerx.is_available()`,
`chainer.cuda.check_cuda_available()`) are external collaborators and enter
as parameters; the chainer probe may raise a `RuntimeError`, which the
source catches.  Module placement (`.to`, `.to_device`) and the
data-parallel wrappers are modelled syntactically, as the trace of wrapping
operations applied to the module.
-/

/-- `torch.device`: either the cpu or a cuda device with an id. -/
inductive TorchDevice
  | cpu
  | cuda (id : Nat)
  deriving DecidableEq, Repr

/-- A pytorch module together with the placement/wrapping operations
applied to it: `m.to(dev)` and
`torch.nn.DataParallel(m, device_ids=ids, output_device=out)`. -/
inductive TorchModule (M : Type)
  | base (m : M)
  | to (inner : TorchModule M) (dev : TorchDevice)
  | dataParallel (inner : TorchModule M) (device_ids : List Nat) (output_device : Nat)
  deriving DecidableEq, Repr

/-- The capability probe of the pytorch backend. -/
structure CudaProbe where
  is_available : Bool
  device_count : Nat
  deriving DecidableEq, Repr

/-- The four trainer attributes the pytorch device block assigns. -/
structure TorchDeviceResolution (M : Type) where
  use_gpu : Bool
  input_device : TorchDevice
  output_device : TorchDevice
  module : TorchModule M
  deriving DecidableEq, Repr

/-- Embedding of lines 219-244 of the pytorch `_setup`:
`if gpu_ids and torch.cuda.is_available():` with the inner branch on
`(len(gpu_ids) > 1) and (torch.cuda.device_count() > 1)`; otherwise cpu
for both devices and no wrapping. -/
def torchResolveDevices {M : Type} (probe : CudaProbe) (gpu_ids : List Nat)
    (module : TorchModule M) : TorchDeviceResolution M :=
  match gpu_ids, probe.is_available with
  | g0 :: g1 :: rest, true =>
    if probe.device_count > 1 then
      { use_gpu := true
        input_device := .cuda g0
        module := .dataParallel (module.to (.cuda g0)) (g0 :: g1 :: rest) g1
        output_device := .cuda g1 }
    else
      { use_gpu := true
        input_device := .cuda g0
        module := module.to (.cuda g0)
        output_device := .cuda g0 }
  | [g0], true =>
      { use_gpu := true
        input_device := .cuda g0
        module := module.to (.cuda g0)
        output_device := .cuda g0 }
  | _, _ =>
      { use_gpu := false
        input_device := .cpu
        output_device := .cpu
        module := module.to .cpu }

/-- Device-spec string for gpu devices in the chainer backend:
`"cuda:"` under chainerx, `"@cupy:"` otherwise (lines 210-215). -/
def chainerGpuDevicePre (chainerxAvailable : Bool) : String :=
  if chainerxAvailable then "cuda:" else "@cupy:"

/-- Device-spec string for the cpu device in the chainer backend:
`"native"` under chainerx, `"@numpy"` otherwise (lines 210-215). -/
def chainerCpuDeviceSpec (chainerxAvailable : Bool) : String :=
  if chainerxAvailable then "native" else "@numpy"

/-- A chainer module together with the placement/wrapping operations
applied to it: `m.to_device(spec)` and
`DataParallelChainerNetwork(m, devices=...)` (devices given by their spec
strings). -/
inductive ChainerModule (M : Type)
  | base (m : M)
  | toDevice (inner : ChainerModule M) (dev : String)
  | dataParallel (inner : ChainerModule M) (devices : List String)
  deriving DecidableEq, Repr

/-- Result of `chainer.cuda.check_cuda_available()`: a boolean, or a
`RuntimeError` (raised when cupy is unavailable). -/
inductive ChainerCudaProbe
  | ok (available : Bool)
  | raised
  deriving DecidableEq, Repr

/-- The trainer attributes the chainer device block assigns.  Devices are
identified by the spec string passed to `chainer.get_device`.
`data_parallel_optimizers` records whether the multi-gpu branch rebuilt the
optimizers with `DataParallelChainerOptimizer`. -/
structure ChainerDeviceResolution (M : Type) where
  use_gpu : Bool
  input_device : String
  output_device : String
  module : ChainerModule M
  data_parallel_optimizers : Bool
  deriving DecidableEq, Repr

/-- Embedding of lines 210-280 of the chainer `_setup`.  Note the
single-id branch (lines 248-257): the source resolves both devices to the
cpu spec and moves the module there, although its comments say "use the
only available GPU". -/
def chainerResolveDevices {M : Type} (chainerxAvailable : Bool)
    (probe : ChainerCudaProbe) (gpu_ids : List Nat)
    (module : ChainerModule M) : ChainerDeviceResolution M :=
  let gpuPre := chainerGpuDevicePre chainerxAvailable
  let cpuSpec := chainerCpuDeviceSpec chainerxAvailable
  match gpu_ids with
  | [] =>
      { use_gpu := false
        input_device := cpuSpec
        output_device := cpuSpec
        module := module.toDevice cpuSpec
        data_parallel_optimizers := false }
  | g0 :: rest =>
    match probe with
    | .ok true =>
      if rest.length > 0 then
        { use_gpu := true
          input_device := gpuPre ++ toString g0
          module := .dataParallel (module.toDevice "@numpy")
              ((g0 :: rest).map (fun i => gpuPre ++ toString i))
          output_device := gpuPre ++ toString g0
          data_parallel_optimizers := true }
      else
        { use_gpu := true
          input_device := cpuSpec
          module := module.toDevice cpuSpec
          output_device := cpuSpec
          data_parallel_optimizers := false }
    | .ok false =>
        { use_gpu := false
          input_device := cpuSpec
          output_device := cpuSpec
          module := module.toDevice cpuSpec
          data_parallel_optimizers := false }
    | .raised =>
        { use_gpu := false
          input_device := cpuSpec
          output_device := cpuSpec
          module := module.toDevice cpuSpec
          data_parallel_optimizers := false }

/-! ### Checkpoint cadence

Embeds the save decisions of `_at_training_begin` (lines 250-263) and
`_at_epoch_end` (lines 310-346) of the pytorch trainer, and — modelled
from the spec — the epoch loop.
-/

/-- A `save_state` call made during a training run, identified by which of
the three checkpoint slots it writes. -/
inductive SaveEvent
  | initial
  | periodic (epoch : Nat)
  | best (epoch : Nat)
  deriving DecidableEq, Repr

/-- The filename each save event passes through `save_state`'s
canonicalization: `_at_training_begin` passes `"checkpoint_epoch_0"` (no
extension), `_at_epoch_end` passes `"checkpoint_epoch_%d.pt" % epoch`
resp. `"checkpoint_best.pt"`. -/
def saveEventFileName : SaveEvent → String
  | .initial => canonicalTorchName "checkpoint_epoch_0"
  | .periodic e => canonicalTorchName ("checkpoint_epoch_" ++ toString e ++ ".pt")
  | .best _ => canonicalTorchName "checkpoint_best.pt"

/-- The save calls issued by `_at_epoch_end` (lines 338-346): a periodic
checkpoint exactly when `epoch % save_freq == 0`, then the best checkpoint
exactly when `is_best`. -/
def atEpochEndSaves (save_freq epoch : Nat) (is_best : Bool) : List SaveEvent :=
  (if epoch % save_freq == 0 then [.periodic epoch] else [])
  ++ (if is_best then [.best epoch] else [])

/-- Modelled from the spec: the epoch loop of the base trainer's `train`
method (module `delira/training/abstract_trainer.py`, not part of the
examined sources) iterates over each epoch in
`[start_epoch, start_epoch + num_epochs)`. -/
def trainingEpochs (start_epoch num_epochs : Nat) : List Nat :=
  List.range' start_epoch num_epochs

/-- All save calls of a training run: the initial epoch-0 checkpoint of
`_at_training_begin`, then the per-epoch saves of `_at_epoch_end`;
`is_best e` tells whether the validation of epoch `e` strictly improved the
best score. -/
def trainingRunSaves (start_epoch num_epochs save_freq : Nat)
    (is_best : Nat → Bool) : List SaveEvent :=
  .initial :: (trainingEpochs start_epoch num_epochs).flatMap
      (fun e => atEpochEndSaves save_freq e (is_best e))

/-- The epochs for which a periodic checkpoint was written. -/
def periodicEpochs (evs : List SaveEvent) : List Nat :=
  evs.filterMap (fun ev => match ev with | .periodic e => some e | _ => none)

/-- The epochs at which the best checkpoint was (over)written. -/
def bestWriteEpochs (evs : List SaveEvent) : List Nat :=
  evs.filterMap (fun ev => match ev with | .best e => some e | _ => none)

/-! ## Theorems -/

/-- C9: when both the deprecated `criterions` argument and the current
`losses` argument are supplied, the value of `losses` is used and the
both-specified warning is issued; when exactly one of the two is supplied,
the supplied one is used, with a deprecation warning exactly in the
`criterions` case.  Resolution is a total function, so construction never
fails on these inputs. -/
theorem criterions_losses_resolution {L : Type} (lv cv : L) :
    resolveLosses (some lv) (some cv) = (some lv, [.bothSpecified])
    ∧ resolveLosses (some lv) (none : Option L) = (some lv, [])
    ∧ resolveLosses (none : Option L) (some cv)
        = (some cv, [.deprecatedCriterions]) := by
  refine ⟨?_, ?_, ?_⟩ <;> simp [resolveLosses]

/-- C10: when neither `losses` nor `criterions` is supplied, the
constructor still issues the `RuntimeWarning` claiming both were
specified, and proceeds with the losses value `None`. -/
theorem both_none_issues_runtime_warning {L : Type} :
    resolveLosses (none : Option L) (none : Option L)
      = (none, [.bothSpecified]) := by
  simp [resolveLosses]

/-- C1: the save/load round-trip on the epoch field fails: `save_state`
accepts an `epoch` argument but does not forward it to `save_checkpoint`
(its docstring promises the epoch "will be saved for mapping back"), so the
saved artifact is independent of `E` and the loaded bundle's epoch field
never equals `some E`. -/
theorem save_state_drops_epoch {M O : Type} (t : PyTorchTrainerState M O)
    (file_name : String) (E : Nat) :
    save_state t file_name E = save_state t file_name 0
    ∧ (save_state t file_name E).epochKw = none
    ∧ (load_checkpoint (save_checkpoint (save_state t file_name E))).epoch
        ≠ some E := by
  refine ⟨rfl, rfl, ?_⟩
  simp [save_state, save_checkpoint, load_checkpoint]

/-- C5 (failing input): the chainer single-gpu branch — `gpu_ids = [0]`,
cuda probe succeeding — resolves both devices to the cpu spec (`"@numpy"`
without chainerx) and moves the module there, instead of placing it on gpu
0 as its own comments say; the pytorch backend at the same input does place
the module on `cuda:0` with both devices equal to it. -/
theorem chainer_single_gpu_resolves_cpu :
    (chainerResolveDevices false (.ok true) [0] (.base 0)).use_gpu = true
    ∧ (chainerResolveDevices false (.ok true) [0] (.base 0)).input_device
        = "@numpy"
    ∧ (chainerResolveDevices false (.ok true) [0] (.base 0)).output_device
        = "@numpy"
    ∧ (chainerResolveDevices false (.ok true) [0] (.base 0)).module
        = ChainerModule.toDevice (.base 0) "@numpy"
    ∧ (torchResolveDevices ⟨true, 1⟩ [0] (.base 0)).input_device
        = .cuda 0
    ∧ (torchResolveDevices ⟨true, 1⟩ [0] (.base 0)).output_device
        = .cuda 0
    ∧ (torchResolveDevices ⟨true, 1⟩ [0] (.base 0)).module
        = TorchModule.to (.base 0) (.cuda 0) := by
  refine ⟨rfl, rfl, rfl, rfl, rfl, rfl, rfl⟩

/-- C7 (failing input): when the latest chainer checkpoint's primary file
`checkpoint_epoch_7.chain` is absent, the fallback slices off the final
character and `load_state`'s canonicalization then appends `".chain"`,
so the name actually opened is `checkpoint_epoch_7.chai.chain` — not a
secondary-extension variant of the same path.  The pytorch backend's
fallback does work: `.pth` falls back to `.pt`, and missing extensions are
corrected on save/load. -/
theorem chainer_extension_fallback_broken :
    chainerResumeLoadName "save" 7 (fun _ => false)
      = "save/checkpoint_epoch_7.chai.chain"
    ∧ torchResumeLoadName "save" 7 (fun _ => false)
        = "save/checkpoint_epoch_7.pt"
    ∧ torchResumeLoadName "save" 7 (fun _ => true)
        = "save/checkpoint_epoch_7.pth"
    ∧ canonicalTorchName "checkpoint_epoch_0" = "checkpoint_epoch_0.pt"
    ∧ canonicalChainerName "checkpoint_epoch_0" = "checkpoint_epoch_0.chain" := by
  refine ⟨?_, ?_, ?_, ?_, ?_⟩ <;> decide

/-- A concrete trainer state: one module state, one optimizer named
`"default"`, `start_epoch = 1`. -/
def exampleTrainer : PyTorchTrainerState Nat Nat :=
  { module := 0, optimizers := [("default", 0)], start_epoch := 1,
    mergedKeys := [] }

/-- A checkpoint bundle missing the `"model"` key but carrying an epoch. -/
def missingModelBundle : StateBundle Nat Nat :=
  { model := none, optimizer := none, epoch := some 7, rest := [] }

/-- C3 (counterexample): resuming from a bundle that is missing the
`"model"` key does not log the recovery warning and does not leave
`start_epoch = 1`: `_update_state` silently skips the model load and still
applies the bundle's epoch, so setup continues with `start_epoch = 7`. -/
theorem missing_model_resume_not_fresh :
    (setupResume exampleTrainer missingModelBundle).2 = false
    ∧ (setupResume exampleTrainer missingModelBundle).1.start_epoch = 7
    ∧ ¬ ((setupResume exampleTrainer missingModelBundle).2 = true
        ∧ (setupResume exampleTrainer missingModelBundle).1.start_epoch = 1) := by
  refine ⟨rfl, rfl, ?_⟩
  rintro ⟨h, -⟩
  exact Bool.false_ne_true h

/-- The optimizer loop raises `KeyError` exactly when some optimizer key of
the trainer has no entry in the loaded optimizer state. -/
theorem loadOptimStates_raised_iff {O : Type}
    (current optim_state : List (String × O)) :
    (loadOptimStates current optim_state).2 = true
      ↔ ∃ p ∈ current, optim_state.lookup p.1 = none := by
  induction current with
  | nil => simp [loadOptimStates]
  | cons hd tl ih =>
    obtain ⟨k, v⟩ := hd
    cases h : optim_state.lookup k with
    | none =>
      refine iff_of_true ?_ ⟨(k, v), List.mem_cons_self _ _, h⟩
      simp [loadOptimStates, h]
    | some s =>
      rw [show (loadOptimStates ((k, v) :: tl) optim_state).2
            = (loadOptimStates tl optim_state).2 by simp [loadOptimStates, h]]
      rw [ih]
      constructor
      · rintro ⟨p, hp, hl⟩
        exact ⟨p, List.mem_cons_of_mem _ hp, hl⟩
      · rintro ⟨p, hp, hl⟩
        rcases List.mem_cons.mp hp with hp | hp
        · subst hp; simp [h] at hl
        · exact ⟨p, hp, hl⟩

/-- The optimizer block raises `KeyError` exactly when the bundle carries a
nonempty optimizer mapping missing the entry for one of the trainer's
optimizer keys. -/
theorem updateOptim_raised_iff {M O : Type} (t1 : PyTorchTrainerState M O)
    (b : StateBundle M O) :
    (updateOptim t1 b).2 = true ↔
      ∃ os, b.optimizer = some os ∧ os ≠ []
        ∧ ∃ p ∈ t1.optimizers, os.lookup p.1 = none := by
  cases hb : b.optimizer with
  | none => simp [updateOptim, hb]
  | some os =>
    cases hos : os.isEmpty with
    | true =>
      have : os = [] := List.isEmpty_iff.mp hos
      subst this
      simp [updateOptim, hb]
    | false =>
      have hne : os ≠ [] := by
        intro h; subst h; simp at hos
      simp [updateOptim, hb, hos, loadOptimStates_raised_iff, hne]

/-- C3 (amended): a bundle missing the `"model"` key never mutates the
module. When no `KeyError` is raised, no warning is logged and the
bundle's epoch (when present) becomes `start_epoch`; when a `KeyError` is
raised, the warning is logged and `start_epoch` and module are left
untouched. The `KeyError` — and hence the logged-warning recovery path —
occurs exactly when the bundle carries a nonempty optimizer mapping that
is missing the state for one of the trainer's optimizers. -/
theorem missing_model_key_behaviour {M O : Type}
    (t : PyTorchTrainerState M O) (b : StateBundle M O)
    (hm : b.model = none) :
    ((setupResume t b).2 = false →
        (setupResume t b).1.start_epoch = b.epoch.getD t.start_epoch
        ∧ (setupResume t b).1.module = t.module)
    ∧ ((setupResume t b).2 = true →
        (setupResume t b).1.start_epoch = t.start_epoch
        ∧ (setupResume t b).1.module = t.module)
    ∧ ((setupResume t b).2 = true ↔
        ∃ os, b.optimizer = some os ∧ os ≠ []
          ∧ ∃ p ∈ t.optimizers, os.lookup p.1 = none) := by
  have hmod : updateModel t b = t := by simp [updateModel, hm]
  have hiff := updateOptim_raised_iff t b
  unfold setupResume update_state
  rw [hmod]
  cases hr : (updateOptim t b).2 with
  | false =>
    rw [hr] at hiff
    simp only [hr, Bool.false_eq_true, if_false]
    refine ⟨fun _ => ⟨?_, ?_⟩, fun h => absurd h (by simp), by simpa using hiff⟩
    · cases he : b.epoch <;> simp [updateEpoch, he]
    · cases he : b.epoch <;> simp [updateEpoch, he]
  | true =>
    rw [hr] at hiff
    simp only [hr, if_true]
    refine ⟨fun h => absurd h (by simp), fun _ => ⟨?_, ?_⟩, by simpa using hiff⟩
    · trivial
    · trivial

/-- Witness for `missing_model_key_behaviour` at a concrete trainer and a
concrete bundle missing the `"model"` key. -/
theorem missing_model_key_behaviour_witness :
    missingModelBundle.model = none
    ∧ (setupResume exampleTrainer missingModelBundle).1.start_epoch
        = missingModelBundle.epoch.getD exampleTrainer.start_epoch :=
  ⟨rfl, ((missing_model_key_behaviour exampleTrainer missingModelBundle
      rfl).1 rfl).1⟩

/-- C4: an empty accelerator-id list, a probe reporting no accelerator, or
a probe exception (chainer's `RuntimeError`) makes the resolver set
`use_gpu = false`, resolve both devices to the cpu variant, and place the
module on the cpu without any data-parallel wrapping; no error escapes. -/
theorem device_fallback {M M' : Type} (probe : CudaProbe)
    (cprobe : ChainerCudaProbe) (cx : Bool) (gpu_ids : List Nat)
    (m : TorchModule M) (cm : ChainerModule M')
    (hT : gpu_ids = [] ∨ probe.is_available = false)
    (hC : gpu_ids = [] ∨ cprobe = .ok false ∨ cprobe = .raised) :
    torchResolveDevices probe gpu_ids m
      = { use_gpu := false, input_device := .cpu, output_device := .cpu,
          module := m.to .cpu }
    ∧ chainerResolveDevices cx cprobe gpu_ids cm
      = { use_gpu := false, input_device := chainerCpuDeviceSpec cx,
          output_device := chainerCpuDeviceSpec cx,
          module := cm.toDevice (chainerCpuDeviceSpec cx),
          data_parallel_optimizers := false } := by
  constructor
  · rcases hT with h | h
    · subst h
      obtain ⟨av, dc⟩ := probe
      cases av <;> rfl
    · obtain ⟨av, dc⟩ := probe
      cases av
      · cases gpu_ids with
        | nil => rfl
        | cons g0 rest => cases rest <;> rfl
      · exact absurd h (by simp)
  · rcases hC with h | h | h
    · subst h; rfl
    · subst h
      cases gpu_ids with
      | nil => rfl
      | cons g0 rest => rfl
    · subst h
      cases gpu_ids with
      | nil => rfl
      | cons g0 rest => rfl

/-- Witness for `device_fallback`: the pytorch resolver with two requested
ids but an unavailable driver, and the chainer resolver with two requested
ids but a probe that raises, both fall back to the cpu. -/
theorem device_fallback_witness :
    (CudaProbe.mk false 0).is_available = false
    ∧ (torchResolveDevices ⟨false, 0⟩ [2, 3] (.base 0)).use_gpu = false
    ∧ (torchResolveDevices ⟨false, 0⟩ [2, 3] (.base 0)).input_device = .cpu
    ∧ (chainerResolveDevices true .raised [2, 3] (.base 0)).input_device
        = "native" := by
  have h := device_fallback ⟨false, 0⟩ .raised true [2, 3]
    (.base (0 : Nat)) (.base (0 : Nat)) (Or.inr rfl) (Or.inr (Or.inr rfl))
  refine ⟨rfl, ?_, ?_, ?_⟩
  · rw [h.1]
  · rw [h.1]
  · rw [h.2]; rfl

/-- C6: with at least two requested ids and a succeeding capability probe,
the input device is the first id and the module is wrapped in the
backend's data-parallel construct spanning all ids; pytorch designates the
second id as output device, chainer (whose data-parallel wrapper has no
distinct balancing device) uses the first. -/
theorem multi_gpu_placement {M M' : Type} (probe : CudaProbe)
    (g0 g1 : Nat) (rest : List Nat) (cx : Bool)
    (m : TorchModule M) (cm : ChainerModule M')
    (hav : probe.is_available = true) (hdc : probe.device_count > 1) :
    torchResolveDevices probe (g0 :: g1 :: rest) m
      = { use_gpu := true, input_device := .cuda g0,
          module := .dataParallel (m.to (.cuda g0)) (g0 :: g1 :: rest) g1,
          output_device := .cuda g1 }
    ∧ chainerResolveDevices cx (.ok true) (g0 :: g1 :: rest) cm
      = { use_gpu := true,
          input_device := chainerGpuDevicePre cx ++ toString g0,
          module := .dataParallel (cm.toDevice "@numpy")
            ((g0 :: g1 :: rest).map
              (fun i => chainerGpuDevicePre cx ++ toString i)),
          output_device := chainerGpuDevicePre cx ++ toString g0,
          data_parallel_optimizers := true } := by
  obtain ⟨av, dc⟩ := probe
  constructor
  · cases av
    · exact absurd hav (by simp)
    · simp only at hdc
      simp [torchResolveDevices, hdc]
  · simp [chainerResolveDevices]

/-- Witness for `multi_gpu_placement` at ids `[0, 1]` and a probe
reporting two devices. -/
theorem multi_gpu_placement_witness :
    (CudaProbe.mk true 2).is_available = true
    ∧ (CudaProbe.mk true 2).device_count > 1
    ∧ (torchResolveDevices ⟨true, 2⟩ [0, 1] (.base 0)).output_device
        = .cuda 1
    ∧ (chainerResolveDevices false (.ok true) [0, 1] (.base 0)).input_device
        = "@cupy:0" := by
  have h := multi_gpu_placement ⟨true, 2⟩ 0 1 [] false
    (.base (0 : Nat)) (.base (0 : Nat)) rfl (by decide)
  refine ⟨rfl, by decide, ?_, ?_⟩
  · rw [h.1]
  · rw [h.2]; decide

/-- `periodicEpochs` distributes over list append. -/
theorem periodicEpochs_append (a b : List SaveEvent) :
    periodicEpochs (a ++ b) = periodicEpochs a ++ periodicEpochs b := by
  simp [periodicEpochs, List.filterMap_append]

/-- `bestWriteEpochs` distributes over list append. -/
theorem bestWriteEpochs_append (a b : List SaveEvent) :
    bestWriteEpochs (a ++ b) = bestWriteEpochs a ++ bestWriteEpochs b := by
  simp [bestWriteEpochs, List.filterMap_append]

/-- The periodic write of a single epoch end happens exactly on the
save-frequency condition. -/
theorem periodicEpochs_atEpochEnd (f e : Nat) (b : Bool) :
    periodicEpochs (atEpochEndSaves f e b)
      = if e % f == 0 then [e] else [] := by
  cases h : e % f == 0 <;> cases b <;>
    simp [atEpochEndSaves, periodicEpochs, h]

/-- The best write of a single epoch end happens exactly on `is_best`. -/
theorem bestWriteEpochs_atEpochEnd (f e : Nat) (b : Bool) :
    bestWriteEpochs (atEpochEndSaves f e b) = if b then [e] else [] := by
  cases h : e % f == 0 <;> cases b <;>
    simp [atEpochEndSaves, bestWriteEpochs, h]

/-- Periodic writes over a list of epochs are the epochs passing the
save-frequency condition. -/
theorem periodicEpochs_flatMap (l : List Nat) (f : Nat) (ib : Nat → Bool) :
    periodicEpochs (l.flatMap (fun e => atEpochEndSaves f e (ib e)))
      = l.filter (fun e => e % f == 0) := by
  induction l with
  | nil => rfl
  | cons e tl ih =>
    rw [List.flatMap_cons, periodicEpochs_append, periodicEpochs_atEpochEnd,
      ih]
    cases h : e % f == 0 <;> simp [List.filter_cons, h]

/-- Best writes over a list of epochs are the epochs passing `is_best`. -/
theorem bestWriteEpochs_flatMap (l : List Nat) (f : Nat) (ib : Nat → Bool) :
    bestWriteEpochs (l.flatMap (fun e => atEpochEndSaves f e (ib e)))
      = l.filter ib := by
  induction l with
  | nil => rfl
  | cons e tl ih =>
    rw [List.flatMap_cons, bestWriteEpochs_append, bestWriteEpochs_atEpochEnd,
      ih]
    cases h : ib e <;> simp [List.filter_cons, h]

/-- `SaveEvent.initial` contributes no periodic epoch. -/
theorem periodicEpochs_initial_cons (l : List SaveEvent) :
    periodicEpochs (.initial :: l) = periodicEpochs l := by
  simp [periodicEpochs]

/-- `SaveEvent.initial` contributes no best-write epoch. -/
theorem bestWriteEpochs_initial_cons (l : List SaveEvent) :
    bestWriteEpochs (.initial :: l) = bestWriteEpochs l := by
  simp [bestWriteEpochs]

/-- C8: over a full training run, a periodic checkpoint for epoch `e` is
written exactly when `e` is a loop epoch with `e % save_freq == 0`, the
best checkpoint is written exactly at the loop epochs where `is_best`
holds, and the run starts with the initial epoch-0 checkpoint, whose
filename canonicalizes to `checkpoint_epoch_0.pt`. -/
theorem checkpoint_cadence (start_epoch num_epochs save_freq : Nat)
    (is_best : Nat → Bool) (hf : 0 < save_freq) :
    periodicEpochs (trainingRunSaves start_epoch num_epochs save_freq is_best)
      = (trainingEpochs start_epoch num_epochs).filter
          (fun e => e % save_freq == 0)
    ∧ bestWriteEpochs (trainingRunSaves start_epoch num_epochs save_freq is_best)
      = (trainingEpochs start_epoch num_epochs).filter is_best
    ∧ (trainingRunSaves start_epoch num_epochs save_freq is_best).head?
        = some .initial
    ∧ saveEventFileName .initial = "checkpoint_epoch_0.pt" := by
  have _ := hf
  refine ⟨?_, ?_, rfl, by decide⟩
  · unfold trainingRunSaves
    rw [periodicEpochs_initial_cons, periodicEpochs_flatMap]
  · unfold trainingRunSaves
    rw [bestWriteEpochs_initial_cons, bestWriteEpochs_flatMap]

/-- Witness for `checkpoint_cadence`: `save_freq = 3`, `num_epochs = 10`,
`start_epoch = 1` (with epoch 5 marked best) yields periodic checkpoints
exactly for epochs 3, 6 and 9, a best write at 5, and the initial epoch-0
checkpoint first. -/
theorem checkpoint_cadence_witness :
    (0 : Nat) < 3
    ∧ periodicEpochs (trainingRunSaves 1 10 3 (fun e => e == 5)) = [3, 6, 9]
    ∧ bestWriteEpochs (trainingRunSaves 1 10 3 (fun e => e == 5)) = [5]
    ∧ (trainingRunSaves 1 10 3 (fun e => e == 5)).head? = some .initial := by
  have h := checkpoint_cadence 1 10 3 (fun e => e == 5) (by decide)
  exact ⟨by decide, h.1.trans (by decide), h.2.1.trans (by decide), h.2.2.1⟩

/-- When every element of a list parses, `mapM` returns the list of parse
results (Python's list comprehension over `int(...)` succeeding). -/
theorem mapM_eq_some_of_map {α β : Type} (f : α → Option β) :
    ∀ (l : List α) (es : List β),
      l.map f = es.map some → l.mapM f = some es := by
  intro l
  induction l with
  | nil =>
    intro es h
    cases es with
    | nil => rfl
    | cons e es' => simp at h
  | cons a tl ih =>
    intro es h
    cases es with
    | nil => simp at h
    | cons e es' =>
      simp only [List.map_cons, List.cons.injEq] at h
      rw [List.mapM_cons, h.1, ih es' h.2]
      rfl

/-- A name starting with `"checkpoint_epoch_"` also starts with
`"checkpoint"`. -/
theorem strStartsWith_checkpoint_of_epoch (x : String)
    (h : strStartsWith x "checkpoint_epoch_" = true) :
    strStartsWith x "checkpoint" = true := by
  unfold strStartsWith at *
  rw [List.isPrefixOf_iff_prefix] at *
  exact List.IsPrefix.trans (List.isPrefixOf_iff_prefix.mp (by decide)) h

/-- On a list of files each of which parses to the corresponding epoch of
`es`, the shared scan logic returns the maximum of `es`. -/
theorem scanLatest_eq_max (files : List String) (es : List Nat) (m : Nat)
    (hparse : files.map parseEpochSegment = es.map some)
    (hmax : es.max? = some m) :
    scanLatest files = .resumeFrom m := by
  cases es with
  | nil => simp [List.max?] at hmax
  | cons e es' =>
    have hie : files.isEmpty = false := by
      cases files with
      | nil => simp at hparse
      | cons a tl => rfl
    have hmapM : files.mapM parseEpochSegment = some (e :: es') :=
      mapM_eq_some_of_map _ files _ hparse
    have hm2 : (e :: es').max? = some m := hmax
    rw [show (e :: es').max? = some (es'.foldl Nat.max e) from rfl] at hm2
    unfold scanLatest
    rw [hie, hmapM]
    simp only [Bool.false_eq_true, if_false]
    exact congrArg ResumeOutcome.resumeFrom (Option.some.inj hm2)

/-- C2: for a save directory whose files are checkpoint files named
`checkpoint_epoch_...` (none matching the best-checkpoint suffixes of
either backend), each parsing via the trailing numeric segment before the
extension to an epoch of `es`, the resume scan of either backend selects
the maximum parsed epoch. -/
theorem resume_selects_max (listing : List String) (es : List Nat) (m : Nat)
    (hform : ∀ x ∈ listing,
        strStartsWith x "checkpoint_epoch_" = true
        ∧ strEndsWith x "_best.pth" = false
        ∧ strEndsWith x "_best.pt" = false
        ∧ strEndsWith x "_best.chain" = false)
    (hparse : listing.map parseEpochSegment = es.map some)
    (hmax : es.max? = some m) :
    resumeScan listing = .resumeFrom m
    ∧ chainerResumeScan listing = .resumeFrom m := by
  have hfilterT : torchResumeFiles listing = listing := by
    apply List.filter_eq_self.mpr
    intro x hx
    obtain ⟨h1, h2, h3, h4⟩ := hform x hx
    simp [strStartsWith_checkpoint_of_epoch x h1, h2, h3]
  have hfilterC : chainerResumeFiles listing = listing := by
    apply List.filter_eq_self.mpr
    intro x hx
    obtain ⟨h1, h2, h3, h4⟩ := hform x hx
    simp [strStartsWith_checkpoint_of_epoch x h1, h4]
  constructor
  · unfold resumeScan
    rw [hfilterT]
    exact scanLatest_eq_max listing es m hparse hmax
  · unfold chainerResumeScan
    rw [hfilterC]
    exact scanLatest_eq_max listing es m hparse hmax

/-- Witness for `resume_selects_max`: checkpoint files for epochs
`{1, 3, 7}` lead to resuming epoch 7 in both backends. -/
theorem resume_selects_max_witness :
    (∀ x ∈ (["checkpoint_epoch_1.pt", "checkpoint_epoch_3.pt",
        "checkpoint_epoch_7.pt"] : List String),
      strStartsWith x "checkpoint_epoch_" = true
      ∧ strEndsWith x "_best.pth" = false
      ∧ strEndsWith x "_best.pt" = false
      ∧ strEndsWith x "_best.chain" = false)
    ∧ (["checkpoint_epoch_1.pt", "checkpoint_epoch_3.pt",
        "checkpoint_epoch_7.pt"] : List String).map parseEpochSegment
        = [1, 3, 7].map some
    ∧ ([1, 3, 7] : List Nat).max? = some 7
    ∧ resumeScan ["checkpoint_epoch_1.pt", "checkpoint_epoch_3.pt",
        "checkpoint_epoch_7.pt"] = .resumeFrom 7 := by
  refine ⟨by decide, by decide, by decide, ?_⟩
  exact (resume_selects_max _ [1, 3, 7] 7 (by decide) (by decide)
    (by decide)).1

end Delira
